import Mathlib

/-!
Verification development for `ad2web/decoder.py` (alarmdecoder-webapp).

The Python source is shallowly embedded below.  Runtime strings are
modelled as `List Char` (named `Str`), Python dicts of keyword arguments
as association lists, and the external collaborators (zone-name resolver,
notification dispatcher, listener sockets, settings store, certificate
store, device transport) as explicit parameters whose per-call behaviour
(success or raised exception) is part of the input.  Exceptions are
modelled by explicit outcome values; a Python `try/except` boundary
becomes a branch on those values.
-/

set_option maxRecDepth 10000

abbrev Str := List Char

/-- Convert a Lean string literal to the `List Char` representation used
for all runtime strings of the embedding. -/
def chars (s : String) : Str := s.data

/-- The literal left-brace character used by Python `str.format` templates. -/
def lbrace : Char := '\x7b'

/-- The literal right-brace character used by Python `str.format` templates. -/
def rbrace : Char := '\x7d'

/-- Lookup of a key in a Python-dict-as-association-list (first binding wins;
`kwargs['zone_name'] = v` is modelled by prepending a binding, which shadows
any older one exactly as dict assignment overwrites it). -/
def lookupKw : List (Str × Str) → Str → Option Str
  | [], _ => none
  | (k, v) :: rest, key => if key = k then some v else lookupKw rest key

/-- Scanner mode for the embedding of Python `str.format`: either copying
text, or accumulating a replacement-field name after an opening brace. -/
inductive FmtMode
  | text
  | key (acc : Str)

/-- Embedding of Python `template.format(**kwargs)` as used at
`decoder.py:216`: replacement fields `\x7bname\x7d` are substituted with the
value bound to `name` in `kwargs`; a missing key is Python's `KeyError`,
modelled as `none`. -/
def formatChars (kw : List (Str × Str)) : FmtMode → Str → Option Str
  | .text, [] => some []
  | .text, c :: rest =>
    if c = lbrace then formatChars kw (.key []) rest
    else (formatChars kw .text rest).map (fun t => c :: t)
  | .key _, [] => none
  | .key acc, c :: rest =>
    if c = rbrace then
      match lookupKw kw acc with
      | none => none
      | some v => (formatChars kw .text rest).map (fun t => v ++ t)
    else formatChars kw (.key (acc ++ [c])) rest

/-- Python `template.format(**kwargs)` (entry point in text mode). -/
def pyFormat (template : Str) (kw : List (Str × Str)) : Option Str :=
  formatChars kw .text template

/-- The fixed vocabulary of event kinds (`log.constants`, used at
`decoder.py:31-64`). -/
inductive EventType
  | ARM | DISARM | POWER_CHANGED | ALARM | FIRE | BYPASS
  | BOOT | CONFIG_RECEIVED | ZONE_FAULT | ZONE_RESTORE
  | LOW_BATTERY | PANIC | RELAY_CHANGED
deriving DecidableEq, Repr

/-- `CRITICAL_EVENTS` (`decoder.py:31-32`). -/
def CRITICAL_EVENTS : List EventType :=
  [.POWER_CHANGED, .ALARM, .BYPASS, .ARM, .DISARM, .ZONE_FAULT,
   .ZONE_RESTORE, .FIRE, .PANIC]

/-- `EVENT_MESSAGES` (`decoder.py:50-64`). -/
def EVENT_MESSAGES : EventType → Str
  | .ARM => chars "The alarm was armed."
  | .DISARM => chars "The alarm was disarmed."
  | .POWER_CHANGED => chars "Power status has changed to {status}."
  | .ALARM => chars "Alarm is triggered!"
  | .FIRE => chars "There is a fire!"
  | .BYPASS => chars "A zone has been bypassed."
  | .BOOT => chars "The AlarmDecoder has finished booting."
  | .CONFIG_RECEIVED => chars "AlarmDecoder has been configured."
  | .ZONE_FAULT => chars "{zone_name} ({zone}) has been faulted."
  | .ZONE_RESTORE => chars "{zone_name} ({zone}) has been restored."
  | .LOW_BATTERY => chars "Low battery detected."
  | .PANIC => chars "Panic!"
  | .RELAY_CHANGED => chars "A relay has changed."

/-- A persisted event-log row (`EventLogEntry(type=ftype, message=event_message)`,
`decoder.py:222`). -/
structure EventLogEntry where
  type : EventType
  message : Str
deriving DecidableEq, Repr

/-- One configured notification target: its identifier and whether its
`send` call succeeds (models `NotificationFactory.create(id)` followed by
`notifier.send(...)`, which may raise). -/
structure Notifier where
  id : Nat
  sendOk : Bool
deriving DecidableEq, Repr

/-- External collaborators of `Decoder._handle_event`: the zone-name
resolver (`Zone.get_name`), the configured notification targets
(`NotificationFactory.notifications()` in order), and whether the final
`self.broadcast` call succeeds without raising. -/
structure Env where
  zoneName : Str → Option Str
  notifiers : List Notifier
  broadcastOk : Bool

/-- The mutable session state touched by `_handle_event`:
`self._last_message` and the committed event log. -/
structure SessionState where
  lastMessage : Option Nat
  eventLog : List EventLogEntry
deriving DecidableEq, Repr

/-- Observable outcome of one `_handle_event` invocation: the post state,
the notification-dispatch attempts actually made (notifier id and the text
handed to `send`), the envelopes handed to `self.broadcast`, and whether
the outer `except Exception` boundary at `decoder.py:227-228` logged an
error. -/
structure HandleOutcome where
  state : SessionState
  attempts : List (Nat × Str)
  broadcasts : List (Str × List (Str × Str))
  errorLogged : Bool

/-- The notification loop at `decoder.py:218-220`: targets are tried in
order; each attempted `send` is recorded; the first failing `send` raises,
so the loop stops there (`false` component).  There is no per-target
exception handler in the source. -/
def dispatchAll : List Notifier → Str → List (Nat × Str) × Bool
  | [], _ => ([], true)
  | n :: rest, m =>
    if n.sendOk then
      let r := dispatchAll rest m
      ((n.id, m) :: r.1, r.2)
    else ([(n.id, m)], false)

/-- The zone-name merge at `decoder.py:212-214`: if `kwargs` has a `zone`
key, resolve its display name and bind `zone_name` to it, falling back to
the literal `<unnamed>` when the resolver returns `None` or an empty
(falsy) string. -/
def mergeZone (env : Env) (kwargs : List (Str × Str)) : List (Str × Str) :=
  match lookupKw kwargs (chars "zone") with
  | none => kwargs
  | some z =>
    match env.zoneName z with
    | some zn =>
      if zn = [] then (chars "zone_name", chars "<unnamed>") :: kwargs
      else (chars "zone_name", zn) :: kwargs
    | none => (chars "zone_name", chars "<unnamed>") :: kwargs

/-- The fixed text prepended to every notification
(`'AlarmDecoder Event: \x7b0\x7d'.format(event_message)`, `decoder.py:220`). -/
def notifHeader : Str := chars "AlarmDecoder Event: "

/-- Embedding of `Decoder._handle_event` (`decoder.py:207-228`).
`self._last_message = time.time()` is the first statement of the `try`
body; then the zone name is merged, the message template is formatted
(a `KeyError` aborts to the outer handler), critical kinds run the
notification loop (a failing `send` aborts to the outer handler, skipping
persistence), one `EventLogEntry` is added and committed, and finally the
mutated `kwargs` are broadcast on channel `event` (a broadcast failure is
also swallowed by the outer handler, after the commit). -/
def handleEvent (env : Env) (now : Nat) (ftype : EventType)
    (kwargs : List (Str × Str)) (s : SessionState) : HandleOutcome :=
  let s1 : SessionState := { s with lastMessage := some now }
  let kw2 := mergeZone env kwargs
  match pyFormat (EVENT_MESSAGES ftype) kw2 with
  | none => { state := s1, attempts := [], broadcasts := [], errorLogged := true }
  | some msg =>
    let d := if ftype ∈ CRITICAL_EVENTS then dispatchAll env.notifiers (notifHeader ++ msg)
             else ([], true)
    if d.2 then
      let s2 : SessionState := { s1 with eventLog := s1.eventLog ++ [⟨ftype, msg⟩] }
      { state := s2, attempts := d.1, broadcasts := [(chars "event", kw2)],
        errorLogged := !env.broadcastOk }
    else
      { state := s1, attempts := d.1, broadcasts := [], errorLogged := true }

/-- One connected listener socket from `self.websocket.sockets`
(`decoder.py:237`): its session identifier and whether `send_packet`
succeeds for it. -/
structure Listener where
  sid : Nat
  sendOk : Bool
deriving DecidableEq, Repr

/-- The wire envelope built by `Decoder._make_packet` (`decoder.py:240-241`). -/
structure Packet where
  type : Str
  name : Str
  args : Str
  endpoint : Str
deriving DecidableEq, Repr

/-- `Decoder._make_packet` (`decoder.py:240-241`). -/
def make_packet (channel data : Str) : Packet :=
  { type := chars "event", name := channel, args := data,
    endpoint := chars "/alarmdecoder" }

/-- `Decoder._broadcast_packet` (`decoder.py:236-238`): iterate the socket
map and call `send_packet` on each.  There is no per-socket exception
handler, so a raising `send_packet` aborts the loop; the result records
each attempted delivery `(sid, succeeded)` and whether the loop ran to
completion. -/
def broadcast_packet : List Listener → Packet → List (Nat × Bool) × Bool
  | [], _ => ([], true)
  | l :: rest, p =>
    if l.sendOk then
      let r := broadcast_packet rest p
      ((l.sid, true) :: r.1, r.2)
    else ([(l.sid, false)], false)

/-- `Decoder.broadcast` (`decoder.py:230-234`) after the external
`jsonpickle.encode` step: `obj` is the already-serialized payload, which is
wrapped by `_make_packet` and handed to `_broadcast_packet`. -/
def broadcastSock (sockets : List Listener) (channel obj : Str) :
    List (Nat × Bool) × Bool :=
  broadcast_packet sockets (make_packet channel obj)

/-- The settings-store values read by `Decoder.open`
(`decoder.py:124-140`); `none` models an unset value. -/
structure Settings where
  device_type : Option Str
  device_location : Option Str
  device_path : Option Str
  device_baudrate : Nat
  device_address : Option Str
  device_port : Option Nat
  use_ssl : Bool

/-- The certificate store queried at `decoder.py:146-147`: the list of
stored certificate names (with multiplicity).  `query.filter_by(name=..)
.one()` succeeds iff exactly one row matches. -/
structure CertStore where
  certNames : List Str

/-- Whether `Certificate.query.filter_by(name=name).one()` succeeds. -/
def certOne (store : CertStore) (name : Str) : Bool :=
  store.certNames.count name = 1

/-- The transport constructed by `Decoder.open`: `SerialDevice` for a
local device, `SocketDevice` otherwise (`decoder.py:128-141`). -/
inductive Transport
  | serial (path : Str) (baud : Nat)
  | socket (host : Str) (port : Nat) (ssl : Bool)
deriving DecidableEq, Repr

/-- Behaviour of the underlying `device.open(baudrate=...)` call at
`decoder.py:156`: success (which fires `_on_device_open`), a raised
`NoDeviceError`, or a raised `SSL.Error`. -/
inductive DevResult
  | ok
  | noDevice
  | sslErr
deriving DecidableEq, Repr

/-- The exception classes that can escape `Decoder.open`
(`decoder.py:143-165`): `NoDeviceError` and `SSL.Error` are logged and
re-raised; a failing certificate lookup (`.one()` with no matching row)
raises out of the `try` uncaught by either handler and also propagates. -/
inductive OpenErr
  | noDevice
  | sslError
  | certNotFound
deriving DecidableEq, Repr

/-- The `Decoder` session state touched by `open`/`close` and the
lifecycle callbacks: the device handle, the reopen flag, and the cached
configuration fields written by `open`. -/
structure DecoderSt where
  device : Option Transport
  trigger_reopen_device : Bool
  dtype : Option Str
  dlocation : Option Str
  dbaud : Nat
deriving DecidableEq, Repr

/-- Python truthiness of a nullable settings string (`if self._device_type:`
at `decoder.py:127`): `None` and the empty string are falsy. -/
def truthy : Option Str → Bool
  | none => false
  | some s => !s.isEmpty

/-- Embedding of `Decoder.open` (`decoder.py:122-165`).  It caches
`device_type`/`device_location`, and if a device type is configured it
resolves the transport (serial for `local`, host/port socket for
`network`, defaulting to `('localhost', 10000)` without SSL), performs the
certificate lookups when SSL is requested (a missing certificate raises
before `self.device` is reassigned), then sets `self.device`, binds events
and calls the underlying open, whose `NoDeviceError`/`SSL.Error` are
re-raised after logging.  A successful underlying open fires the
`_on_device_open` callback (`decoder.py:188-192`), which clears
`trigger_reopen_device`; error paths never touch that flag.  The result is
the post state plus the propagated exception, if any. -/
def Decoder_open (st : Settings) (certs : CertStore) (beh : DevResult)
    (s : DecoderSt) : DecoderSt × Option OpenErr :=
  let s1 := { s with dtype := st.device_type, dlocation := st.device_location }
  if truthy st.device_type then
    let isLocal := st.device_location = some (chars "local")
    let isNetwork := st.device_location = some (chars "network")
    let s2 := if isLocal then { s1 with dbaud := st.device_baudrate } else s1
    let tr : Transport :=
      if isLocal then .serial (st.device_path.getD []) st.device_baudrate
      else if isNetwork then
        .socket (st.device_address.getD []) (st.device_port.getD 0) st.use_ssl
      else .socket (chars "localhost") 10000 false
    let useSsl := isNetwork && st.use_ssl
    if useSsl && !(certOne certs (chars "AlarmDecoder CA")
                   && certOne certs (chars "AlarmDecoder Internal")) then
      (s2, some .certNotFound)
    else
      let s3 := { s2 with device := some tr }
      match beh with
      | .ok => ({ s3 with trigger_reopen_device := false }, none)
      | .noDevice => (s3, some .noDevice)
      | .sslErr => (s3, some .sslError)
  else (s1, none)

/-- The external transport handle for `Decoder.close`: closing it releases
the connection; closing an already-closed transport is a no-op (transport
collaborator contract, spec section 6). -/
structure Conn where
  isOpen : Bool
deriving DecidableEq, Repr

/-- The transport's own `close` (external collaborator). -/
def Conn.closeT (c : Conn) : Conn := { c with isOpen := false }

/-- The session state seen by `Decoder.close`: just the nullable device
handle. -/
structure CloseSt where
  device : Option Conn
deriving DecidableEq, Repr

/-- Embedding of `Decoder.close` (`decoder.py:167-169`): if a device
handle exists, close it; the handle itself is not cleared. -/
def Decoder_close (s : CloseSt) : CloseSt :=
  match s.device with
  | none => s
  | some c => { s with device := some c.closeT }

/-- Behaviour of the `self._decoder.open()` call inside one
`DecoderThread.run` iteration: success, `NoDeviceError`, or any other
exception (e.g. `SSL.Error`), which only the iteration's outer
`except Exception` catches. -/
inductive IterBeh
  | openOk
  | openNoDevice
  | openOther
deriving DecidableEq, Repr

/-- The state read and written by `DecoderThread.run`
(`decoder.py:261-286`). -/
structure ThreadSt where
  running : Bool
  trigger_reopen : Bool
  trigger_restart : Bool
deriving DecidableEq, Repr

/-- Observables of one monitor iteration: the `Device not found` log line
(`decoder.py:276`), the outer `Error in DecoderThread` log line
(`decoder.py:286`), whether `time.sleep(self.TIMEOUT)` was reached, and
whether `stop(restart=True)` replaced the process. -/
structure IterLog where
  loggedNoDevice : Bool
  loggedOther : Bool
  slept : Bool
  restarted : Bool
deriving DecidableEq, Repr

/-- The tail of a monitor iteration after the reopen block: handle a
pending restart trigger (which re-execs the process and never returns),
otherwise sleep for the fixed interval. -/
def afterOpen (s : ThreadSt) (loggedND : Bool) : ThreadSt × IterLog :=
  if s.trigger_restart then
    ({ s with running := false }, ⟨loggedND, false, false, true⟩)
  else (s, ⟨loggedND, false, true, false⟩)

/-- One iteration of `DecoderThread.run`'s `while` body
(`decoder.py:267-286`): if `trigger_reopen_device` is set, attempt
`open()`; a `NoDeviceError` is caught by the inner handler and logged
(the flag is left untouched); any other exception from `open()` falls
through to the outer `except Exception`, which logs and ends the
iteration without sleeping; a successful open clears the flag via the
`_on_device_open` callback.  Then the restart trigger is checked and the
thread sleeps for the fixed interval. -/
def runIteration (beh : IterBeh) (s : ThreadSt) : ThreadSt × IterLog :=
  if s.trigger_reopen then
    match beh with
    | .openOk => afterOpen { s with trigger_reopen := false } false
    | .openNoDevice => afterOpen s true
    | .openOther => (s, ⟨false, true, false, false⟩)
  else afterOpen s false

/-- The monitor loop (`while self._running:` at `decoder.py:267`) driven
by a schedule of per-iteration open behaviours; returns the final state
and how many iterations actually executed. -/
def runLoop : List IterBeh → ThreadSt → ThreadSt × Nat
  | [], s => (s, 0)
  | b :: rest, s =>
    if s.running then
      let r := runLoop rest (runIteration b s).1
      (r.1, r.2 + 1)
    else (s, 0)

/-- Atomic actions of the two racing paths of a diagnostic-test step
(`DecoderNamespace._test_config` at `decoder.py:364-408`, `_test_send` at
`decoder.py:410-440`, `_test_receive` at `decoder.py:442-468`): each
step's completion callback runs `timer.cancel()` and broadcasts its
outcome (`PASS`, or `FAIL` for a send acknowledged with a bad status),
removing itself from the listener list if still present; each step's
timer path `on_timeout` broadcasts `TIMEOUT` then removes the listener if
still present.  `fire` is the guarded entry of each path: the callback
can only start while the listener is registered, the timer only if it has
not been cancelled before expiry. -/
inductive TAct
  | fire
  | cancelT
  | bPass
  | bFail
  | bTimeout
  | removeIf
deriving DecidableEq, Repr

/-- Shared state of one test step's race: listener registration, timer
cancellation, the number of performed listener removals, and the emitted
outcome broadcasts in order. -/
structure TCState where
  registered : Bool
  cancelled : Bool
  removals : Nat
  broadcasts : List Str
deriving DecidableEq, Repr

/-- Effect of one atomic action; `none` means the guarded entry failed and
the whole path never runs (timer cancelled in time, or listener already
deregistered when the device event arrives). -/
def execAct (isCb : Bool) (s : TCState) : TAct → Option TCState
  | .fire =>
    if isCb then (if s.registered then some s else none)
    else (if s.cancelled then none else some s)
  | .cancelT => some { s with cancelled := true }
  | .bPass => some { s with broadcasts := s.broadcasts ++ [chars "PASS"] }
  | .bFail => some { s with broadcasts := s.broadcasts ++ [chars "FAIL"] }
  | .bTimeout => some { s with broadcasts := s.broadcasts ++ [chars "TIMEOUT"] }
  | .removeIf =>
    if s.registered then some { s with registered := false, removals := s.removals + 1 }
    else some s

/-- The three timed diagnostic-test steps: config round-trip, send
round-trip (whose completion callback carries the acknowledged delivery
status), and receive round-trip. -/
inductive TestStep
  | config
  | send (status : Bool)
  | recv
deriving DecidableEq, Repr

/-- The completion-callback path of each step.  `on_config_received`
(`decoder.py:365-369`) cancels the timer, broadcasts `PASS`, then removes
itself if still registered; `on_sending_received` (`decoder.py:411-420`)
cancels the timer, removes itself first, then broadcasts `PASS` when the
acknowledged status is true and `FAIL` otherwise; `on_message`
(`decoder.py:443-448`) cancels the timer, removes itself, then broadcasts
`PASS`. -/
def cbProgOf : TestStep → List TAct
  | .config => [.fire, .cancelT, .bPass, .removeIf]
  | .send status => [.fire, .cancelT, .removeIf, if status then .bPass else .bFail]
  | .recv => [.fire, .cancelT, .removeIf, .bPass]

/-- The timeout path, identical in all three steps (`decoder.py:371-374`,
`422-425`, `450-453`): broadcast `TIMEOUT`, then remove the listener if
still registered. -/
def toProg : List TAct := [.fire, .bTimeout, .removeIf]

/-- Interleaved execution of the two paths under a schedule: `true` picks
the next callback action, `false` the next timer action; a failed guard
kills the rest of that path. -/
def runRace : List Bool → TCState → List TAct → List TAct → TCState
  | [], s, _, _ => s
  | pick :: sched, s, cb, t =>
    if pick then
      match cb with
      | [] => runRace sched s [] t
      | a :: cbrest =>
        match execAct true s a with
        | some s1 => runRace sched s1 cbrest t
        | none => runRace sched s [] t
    else
      match t with
      | [] => runRace sched s cb []
      | a :: trest =>
        match execAct false s a with
        | some s1 => runRace sched s1 cb trest
        | none => runRace sched s cb []

/-- A full race of one step invocation from the state right after its
listener is registered and its timer armed (`decoder.py:376-399`,
`427-432`, `455-460`). -/
def stepRace (step : TestStep) (sched : List Bool) : TCState :=
  runRace sched ⟨true, false, 0, []⟩ (cbProgOf step) toProg

/-- A template with no opening brace formats to itself under any keyword
set. -/
theorem formatChars_no_brace (kw : List (Str × Str)) :
    ∀ l : Str, lbrace ∉ l → formatChars kw .text l = some l := by
  intro l hl
  induction l with
  | nil => simp [formatChars]
  | cons c rest ih =>
    have hc : c ≠ lbrace := fun h => hl (h ▸ List.mem_cons_self c rest)
    have hrest : lbrace ∉ rest := fun h => hl (List.mem_cons_of_mem c h)
    simp [formatChars, hc, ih hrest]

/-- Evaluation of the two-placeholder zone templates: with `zone_name` and
`zone` both bound, the template formats to the substituted text. -/
theorem formatChars_zone_template (kw : List (Str × Str)) (zn z tl : Str)
    (hn : lookupKw kw (chars "zone_name") = some zn)
    (hz : lookupKw kw (chars "zone") = some z)
    (ht : lbrace ∉ tl) :
    pyFormat (chars "{zone_name} ({zone})" ++ tl) kw
      = some (zn ++ chars " (" ++ z ++ chars ")" ++ tl) := by
  have hn2 : lookupKw kw (['z','o','n','e','_','n','a','m','e'] : Str) = some zn := hn
  have hz2 : lookupKw kw (['z','o','n','e'] : Str) = some z := hz
  have htail := formatChars_no_brace kw tl ht
  simp [pyFormat, formatChars, lbrace, rbrace, chars, hn2, hz2, htail]

/-- Characterization of the notification loop: it attempts exactly the
leading succeeding targets plus the first failing one (if any), and
completes without raising iff no target fails. -/
theorem dispatchAll_eq (m : Str) : ∀ l : List Notifier,
    dispatchAll l m
      = (((l.takeWhile fun n => n.sendOk) ++ (l.dropWhile fun n => n.sendOk).take 1).map
          (fun n => (n.id, m)),
         (l.dropWhile fun n => n.sendOk).isEmpty) := by
  intro l
  induction l with
  | nil => simp [dispatchAll]
  | cons n rest ih =>
    by_cases h : n.sendOk
    · simp [dispatchAll, h, List.takeWhile_cons, List.dropWhile_cons, ih]
    · simp [dispatchAll, h, List.takeWhile_cons, List.dropWhile_cons]

/-- When every configured target's `send` succeeds, the loop attempts all
of them in order and completes. -/
theorem dispatchAll_all_ok (l : List Notifier) (h : ∀ n ∈ l, n.sendOk = true) :
    ∀ m : Str, dispatchAll l m = (l.map fun n => (n.id, m), true) := by
  intro m
  induction l with
  | nil => simp [dispatchAll]
  | cons n rest ih =>
    have hn := h n (List.mem_cons_self n rest)
    have hrest : ∀ x ∈ rest, x.sendOk = true := fun x hx => h x (List.mem_cons_of_mem n hx)
    simp [dispatchAll, hn, ih hrest]

/-- C10: `_handle_event` records `self._last_message = time.time()` as its
very first action, before the zone lookup, template formatting,
notification dispatch, persistence and broadcast, so the timestamp is
updated even when any of those later steps raises and is swallowed at the
callback boundary. -/
theorem last_message_always_updated (env : Env) (now : Nat) (ftype : EventType)
    (kwargs : List (Str × Str)) (s : SessionState) :
    (handleEvent env now ftype kwargs s).state.lastMessage = some now := by
  unfold handleEvent
  dsimp only
  split
  · rfl
  · split <;> split <;> rfl

/-- C7: for every event kind outside the critical subset (boot,
config-received, low-battery, relay-changed), handling one classified
callback persists exactly one EventRecord (with the kind's fixed message)
and performs zero notification-dispatch attempts. -/
theorem noncritical_event_no_dispatch (env : Env) (now : Nat) (ftype : EventType)
    (kwargs : List (Str × Str)) (s : SessionState)
    (h : ftype ∈ [EventType.BOOT, EventType.CONFIG_RECEIVED,
                  EventType.LOW_BATTERY, EventType.RELAY_CHANGED]) :
    (handleEvent env now ftype kwargs s).attempts = []
    ∧ (handleEvent env now ftype kwargs s).state.eventLog
        = s.eventLog ++ [⟨ftype, EVENT_MESSAGES ftype⟩] := by
  have hcases : ftype = EventType.BOOT ∨ ftype = EventType.CONFIG_RECEIVED
      ∨ ftype = EventType.LOW_BATTERY ∨ ftype = EventType.RELAY_CHANGED := by
    simpa using h
  have hnb : lbrace ∉ EVENT_MESSAGES ftype := by
    rcases hcases with h1 | h1 | h1 | h1 <;> subst h1 <;> decide
  have hnc : ftype ∉ CRITICAL_EVENTS := by
    rcases hcases with h1 | h1 | h1 | h1 <;> subst h1 <;> decide
  have hfmt : pyFormat (EVENT_MESSAGES ftype) (mergeZone env kwargs)
      = some (EVENT_MESSAGES ftype) :=
    formatChars_no_brace _ _ hnb
  simp [handleEvent, hfmt, hnc]

/-- Witness for C7: a boot event against a session with one configured
notifier makes no dispatch attempt and appends exactly one log row. -/
theorem noncritical_event_witness :
    (handleEvent { zoneName := fun _ => none, notifiers := [⟨1, true⟩], broadcastOk := true }
        3 EventType.BOOT [] ⟨none, []⟩).attempts = []
    ∧ (handleEvent { zoneName := fun _ => none, notifiers := [⟨1, true⟩], broadcastOk := true }
        3 EventType.BOOT [] ⟨none, []⟩).state.eventLog
        = [⟨EventType.BOOT, EVENT_MESSAGES EventType.BOOT⟩] :=
  noncritical_event_no_dispatch _ 3 EventType.BOOT [] ⟨none, []⟩ (by decide)

/-- C8: `open()` with an unconfigured (None or empty, hence falsy) device
type constructs no Connection: the device handle and reopen flag are left
unchanged and no exception is raised.  (The cached `_device_type` and
`_device_location` fields are still written, as at `decoder.py:124-125`.) -/
theorem open_unconfigured_noop (st : Settings) (certs : CertStore)
    (beh : DevResult) (s : DecoderSt) (h : truthy st.device_type = false) :
    (Decoder_open st certs beh s).2 = none
    ∧ (Decoder_open st certs beh s).1.device = s.device
    ∧ (Decoder_open st certs beh s).1.trigger_reopen_device
        = s.trigger_reopen_device := by
  simp [Decoder_open, h]

/-- Witness for C8: opening with no device type configured, against a
session holding no device and a set reopen flag. -/
theorem open_unconfigured_witness :
    (Decoder_open ⟨none, none, none, 115200, none, none, false⟩ ⟨[]⟩ DevResult.ok
        ⟨none, true, none, none, 115200⟩).2 = none
    ∧ (Decoder_open ⟨none, none, none, 115200, none, none, false⟩ ⟨[]⟩ DevResult.ok
        ⟨none, true, none, none, 115200⟩).1.device = none
    ∧ (Decoder_open ⟨none, none, none, 115200, none, none, false⟩ ⟨[]⟩ DevResult.ok
        ⟨none, true, none, none, 115200⟩).1.trigger_reopen_device = true :=
  open_unconfigured_noop _ _ DevResult.ok ⟨none, true, none, none, 115200⟩ (by decide)

/-- C9: `close()` is a no-op when no Connection exists, and is idempotent:
any number of repeated `close()` calls has the same effect on the session
state as a single one. -/
theorem close_idempotent (s : CloseSt) :
    Decoder_close (Decoder_close s) = Decoder_close s
    ∧ (s.device = none → Decoder_close s = s)
    ∧ (∀ n : Nat, Decoder_close^[n + 1] s = Decoder_close s) := by
  have hidem : ∀ t : CloseSt, Decoder_close (Decoder_close t) = Decoder_close t := by
    intro t
    rcases t with ⟨_ | c⟩ <;> rfl
  refine ⟨hidem s, ?_, ?_⟩
  · intro h
    rcases s with ⟨d⟩
    have h2 : d = none := h
    subst h2
    rfl
  · intro n
    induction n with
    | zero => rfl
    | succ k ih =>
      rw [Function.iterate_succ_apply', ih, hidem]

/-- Witness for C9 at a session with no open Connection: `close` is a
no-op, and three closes equal one. -/
theorem close_idempotent_witness :
    Decoder_close (Decoder_close ⟨none⟩) = Decoder_close ⟨none⟩
    ∧ Decoder_close (⟨none⟩ : CloseSt) = ⟨none⟩
    ∧ Decoder_close^[3] (⟨none⟩ : CloseSt) = Decoder_close ⟨none⟩ := by
  obtain ⟨h1, h2, h3⟩ := close_idempotent ⟨none⟩
  exact ⟨h1, h2 rfl, h3 2⟩


/-- Counterexample to C1 as stated: with two configured targets whose
first `send` raises, a critical event attempts only the first target
(the second is never tried) and persists no EventRecord at all — the
exception is swallowed at the callback boundary after skipping
`db.session.add`/`commit`. -/
theorem notifier_failure_blocks_rest_and_persistence :
    (handleEvent ⟨fun _ => none, [⟨1, false⟩, ⟨2, true⟩], true⟩
        0 EventType.ALARM [] ⟨none, []⟩).attempts
      = [(1, notifHeader ++ chars "Alarm is triggered!")]
    ∧ (handleEvent ⟨fun _ => none, [⟨1, false⟩, ⟨2, true⟩], true⟩
        0 EventType.ALARM [] ⟨none, []⟩).state.eventLog = []
    ∧ (handleEvent ⟨fun _ => none, [⟨1, false⟩, ⟨2, true⟩], true⟩
        0 EventType.ALARM [] ⟨none, []⟩).errorLogged = true := by
  decide

/-- C1 (amended): for a critical kind whose message formats successfully,
the handler attempts dispatch to the configured targets in order — all of
them when every `send` succeeds, otherwise exactly the leading succeeding
targets plus the first failing one — and persists exactly one EventRecord
with the kind and formatted message if and only if no dispatch failed (a
failing target's exception aborts the loop and suppresses persistence). -/
theorem handle_event_critical_dispatch_amended (env : Env) (now : Nat)
    (ftype : EventType) (kwargs : List (Str × Str)) (s : SessionState) (msg : Str)
    (hc : ftype ∈ CRITICAL_EVENTS)
    (hfmt : pyFormat (EVENT_MESSAGES ftype) (mergeZone env kwargs) = some msg) :
    (handleEvent env now ftype kwargs s).attempts
      = ((env.notifiers.takeWhile fun n => n.sendOk)
          ++ (env.notifiers.dropWhile fun n => n.sendOk).take 1).map
          (fun n => (n.id, notifHeader ++ msg))
    ∧ (handleEvent env now ftype kwargs s).state.eventLog
      = (if (env.notifiers.dropWhile fun n => n.sendOk).isEmpty
         then s.eventLog ++ [⟨ftype, msg⟩] else s.eventLog) := by
  have hd := dispatchAll_eq (notifHeader ++ msg) env.notifiers
  cases he : (env.notifiers.dropWhile fun n => n.sendOk).isEmpty <;>
    simp [handleEvent, hfmt, hc, hd, he]

/-- Witness for C1 (amended): an alarm with two succeeding targets
attempts both and persists one record. -/
theorem handle_event_critical_dispatch_witness :
    (handleEvent ⟨fun _ => none, [⟨1, true⟩, ⟨2, true⟩], true⟩
        0 EventType.ALARM [] ⟨none, []⟩).attempts
      = [(1, notifHeader ++ chars "Alarm is triggered!"),
         (2, notifHeader ++ chars "Alarm is triggered!")]
    ∧ (handleEvent ⟨fun _ => none, [⟨1, true⟩, ⟨2, true⟩], true⟩
        0 EventType.ALARM [] ⟨none, []⟩).state.eventLog
      = [⟨EventType.ALARM, chars "Alarm is triggered!"⟩] :=
  handle_event_critical_dispatch_amended _ 0 EventType.ALARM [] ⟨none, []⟩ _
    (by decide) (by decide)

/-- Counterexample to C6 as stated: a zone-fault whose zone id resolves to
nothing does format with the `<unnamed>` fallback (visible in the text
handed to the notifier), but when the sole configured notifier's dispatch
fails, no EventRecord is persisted — so "an EventRecord is still
persisted" fails on the code. -/
theorem unresolved_zone_notifier_failure_suppresses_persist :
    (handleEvent ⟨fun _ => none, [⟨1, false⟩], true⟩ 0 EventType.ZONE_FAULT
        [(chars "zone", chars "7")] ⟨none, []⟩).attempts
      = [(1, notifHeader ++ chars "<unnamed> (7) has been faulted.")]
    ∧ (handleEvent ⟨fun _ => none, [⟨1, false⟩], true⟩ 0 EventType.ZONE_FAULT
        [(chars "zone", chars "7")] ⟨none, []⟩).state.eventLog = [] := by
  decide

/-- C6 (amended): for a zone-fault or zone-restore whose attributes carry
a zone id the resolver cannot resolve, the message is formatted with the
literal `<unnamed>` fallback as the zone name and the handler raises
nothing; provided every notification dispatch succeeds, exactly one
EventRecord with that message is persisted (a dispatch failure would
suppress persistence, as in C1). -/
theorem unresolved_zone_fallback_amended (env : Env) (now : Nat) (ftype : EventType)
    (kwargs : List (Str × Str)) (s : SessionState) (z : Str)
    (hft : ftype = EventType.ZONE_FAULT ∨ ftype = EventType.ZONE_RESTORE)
    (hz : lookupKw kwargs (chars "zone") = some z)
    (hzn : env.zoneName z = none)
    (hok : ∀ n ∈ env.notifiers, n.sendOk = true) :
    (handleEvent env now ftype kwargs s).state.eventLog
      = s.eventLog ++ [⟨ftype, chars "<unnamed> (" ++ z
          ++ (if ftype = EventType.ZONE_FAULT then chars ") has been faulted."
              else chars ") has been restored.")⟩]
    ∧ (handleEvent env now ftype kwargs s).attempts
      = env.notifiers.map (fun n => (n.id, notifHeader ++ (chars "<unnamed> (" ++ z
          ++ (if ftype = EventType.ZONE_FAULT then chars ") has been faulted."
              else chars ") has been restored."))))
    ∧ (handleEvent env now ftype kwargs s).errorLogged = !env.broadcastOk := by
  have hz0 : lookupKw kwargs (['z','o','n','e'] : Str) = some z := hz
  have hm : mergeZone env kwargs = (chars "zone_name", chars "<unnamed>") :: kwargs := by
    simp [mergeZone, hz, hzn]
  have hn : lookupKw (mergeZone env kwargs) (chars "zone_name")
      = some (chars "<unnamed>") := by
    simp [hm, lookupKw]
  have hz2 : lookupKw (mergeZone env kwargs) (chars "zone") = some z := by
    simp [hm, lookupKw, chars, hz0]
  have hall := dispatchAll_all_ok env.notifiers hok
  rcases hft with h | h <;> subst h
  · have hfmt2 : pyFormat (EVENT_MESSAGES EventType.ZONE_FAULT) (mergeZone env kwargs)
        = some (chars "<unnamed>" ++ chars " (" ++ z ++ chars ")"
            ++ chars " has been faulted.") :=
      formatChars_zone_template (mergeZone env kwargs) (chars "<unnamed>") z
        (chars " has been faulted.") hn hz2 (by decide)
    have hcrit : EventType.ZONE_FAULT ∈ CRITICAL_EVENTS := by decide
    simp [handleEvent, hfmt2, hcrit, hall, chars]
  · have hfmt2 : pyFormat (EVENT_MESSAGES EventType.ZONE_RESTORE) (mergeZone env kwargs)
        = some (chars "<unnamed>" ++ chars " (" ++ z ++ chars ")"
            ++ chars " has been restored.") :=
      formatChars_zone_template (mergeZone env kwargs) (chars "<unnamed>") z
        (chars " has been restored.") hn hz2 (by decide)
    have hcrit : EventType.ZONE_RESTORE ∈ CRITICAL_EVENTS := by decide
    simp [handleEvent, hfmt2, hcrit, hall, chars]

/-- Witness for C6 (amended): zone 7 unresolvable, one succeeding
notifier; the record is persisted with the `<unnamed>` fallback message. -/
theorem unresolved_zone_fallback_witness :
    (handleEvent ⟨fun _ => none, [⟨1, true⟩], true⟩ 0 EventType.ZONE_FAULT
        [(chars "zone", chars "7")] ⟨none, []⟩).state.eventLog
      = [⟨EventType.ZONE_FAULT, chars "<unnamed> (" ++ chars "7"
          ++ (if EventType.ZONE_FAULT = EventType.ZONE_FAULT
              then chars ") has been faulted." else chars ") has been restored.")⟩]
    ∧ (handleEvent ⟨fun _ => none, [⟨1, true⟩], true⟩ 0 EventType.ZONE_FAULT
        [(chars "zone", chars "7")] ⟨none, []⟩).attempts
      = [(⟨1, true⟩ : Notifier)].map (fun n : Notifier => (n.id, notifHeader
          ++ (chars "<unnamed> (" ++ chars "7"
              ++ (if EventType.ZONE_FAULT = EventType.ZONE_FAULT
                  then chars ") has been faulted." else chars ") has been restored."))))
    ∧ (handleEvent ⟨fun _ => none, [⟨1, true⟩], true⟩ 0 EventType.ZONE_FAULT
        [(chars "zone", chars "7")] ⟨none, []⟩).errorLogged = !true :=
  unresolved_zone_fallback_amended ⟨fun _ => none, [⟨1, true⟩], true⟩
    0 EventType.ZONE_FAULT [(chars "zone", chars "7")] ⟨none, []⟩ (chars "7")
    (Or.inl rfl) (by decide) rfl (by decide)

/-- Counterexample to C3 as stated: with two registered listeners whose
first `send_packet` raises, the loop in `_broadcast_packet` aborts — the
second listener never receives its copy. -/
theorem broadcast_failure_aborts_remaining :
    (broadcastSock [⟨1, false⟩, ⟨2, true⟩] (chars "event") (chars "payload")).1
      = [(1, false)]
    ∧ (broadcastSock [⟨1, false⟩, ⟨2, true⟩] (chars "event") (chars "payload")).2
      = false := by
  decide

/-- C3 (amended): `broadcast` wraps the serialized payload in the envelope
`(type: event, name: channel, args: payload, endpoint: /alarmdecoder)` and
sends it to the registered listeners in iteration order; when every send
succeeds each listener receives exactly one copy, but a failing send raises
out of the delivery loop, so listeners after the failing one receive
nothing. -/
theorem broadcast_delivery_amended (sockets : List Listener) (channel obj : Str)
    (h : ∀ l ∈ sockets, l.sendOk = true) :
    (broadcastSock sockets channel obj).1 = sockets.map (fun l => (l.sid, true))
    ∧ (broadcastSock sockets channel obj).2 = true
    ∧ make_packet channel obj
        = ⟨chars "event", channel, obj, chars "/alarmdecoder"⟩ := by
  have key : ∀ ls : List Listener, (∀ l ∈ ls, l.sendOk = true) →
      broadcast_packet ls (make_packet channel obj)
        = (ls.map (fun l => (l.sid, true)), true) := by
    intro ls hls
    induction ls with
    | nil => simp [broadcast_packet]
    | cons a rest ih =>
      have ha := hls a (List.mem_cons_self a rest)
      have hrest : ∀ x ∈ rest, x.sendOk = true :=
        fun x hx => hls x (List.mem_cons_of_mem a hx)
      simp [broadcast_packet, ha, ih hrest]
  exact ⟨by simp [broadcastSock, key sockets h],
         by simp [broadcastSock, key sockets h], rfl⟩

/-- Witness for C3 (amended): two healthy listeners each receive one copy
of the fixed envelope. -/
theorem broadcast_delivery_witness :
    (broadcastSock [⟨1, true⟩, ⟨2, true⟩] (chars "event") (chars "payload")).1
      = [(1, true), (2, true)]
    ∧ (broadcastSock [⟨1, true⟩, ⟨2, true⟩] (chars "event") (chars "payload")).2 = true
    ∧ make_packet (chars "event") (chars "payload")
        = ⟨chars "event", chars "event", chars "payload", chars "/alarmdecoder"⟩ :=
  broadcast_delivery_amended [⟨1, true⟩, ⟨2, true⟩] _ _ (by decide)

/-- C4: every exception escaping `open()` — `NoDeviceError` when no
transport answers, `SSL.Error` from TLS negotiation, or the failed
certificate-store lookup when no `AlarmDecoder CA` row exists — propagates
to the caller with `trigger_reopen_device` left unchanged; in particular
the missing-CA scenario under device-location `network` with `use_ssl`
raises and keeps a previously-true flag true. -/
theorem open_error_propagates_reopen_unchanged (st : Settings) (certs : CertStore)
    (beh : DevResult) (s : DecoderSt) :
    (∀ e, (Decoder_open st certs beh s).2 = some e →
        (Decoder_open st certs beh s).1.trigger_reopen_device
          = s.trigger_reopen_device)
    ∧ (truthy st.device_type = true →
       st.device_location = some (chars "network") →
       st.use_ssl = true →
       certOne certs (chars "AlarmDecoder CA") = false →
       (Decoder_open st certs beh s).2 = some OpenErr.certNotFound
       ∧ (Decoder_open st certs beh s).1.trigger_reopen_device
           = s.trigger_reopen_device) := by
  constructor
  · intro e he
    cases beh <;>
      simp only [Decoder_open] at he ⊢ <;>
      split_ifs at he ⊢ <;>
      simp_all
  · intro ht hloc hssl hca
    have hca0 : certOne certs
        (['A','l','a','r','m','D','e','c','o','d','e','r',' ','C','A'] : Str) = false := hca
    cases beh <;> simp [Decoder_open, ht, hloc, hssl, hca0, chars]

/-- Witness for C4: network location, SSL requested, empty certificate
store, reopen flag previously true — `open()` raises the missing-CA error
and the flag stays true. -/
theorem open_error_witness :
    (Decoder_open ⟨some (chars "ad2usb"), some (chars "network"), none, 115200,
        some (chars "10.0.0.5"), some 10000, true⟩ ⟨[]⟩ DevResult.ok
        ⟨none, true, none, none, 115200⟩).2 = some OpenErr.certNotFound
    ∧ (Decoder_open ⟨some (chars "ad2usb"), some (chars "network"), none, 115200,
        some (chars "10.0.0.5"), some 10000, true⟩ ⟨[]⟩ DevResult.ok
        ⟨none, true, none, none, 115200⟩).1.trigger_reopen_device = true :=
  (open_error_propagates_reopen_unchanged _ _ DevResult.ok
    ⟨none, true, none, none, 115200⟩).2 (by decide) rfl rfl (by decide)

/-- One monitor iteration never clears the running flag, never restarts,
and leaves the restart trigger clear, provided no restart was requested. -/
theorem runIteration_preserves (b : IterBeh) (s : ThreadSt)
    (hrs : s.trigger_restart = false) :
    (runIteration b s).1.running = s.running
    ∧ (runIteration b s).1.trigger_restart = false
    ∧ (runIteration b s).2.restarted = false := by
  cases b <;> by_cases hr : s.trigger_reopen <;>
    simp [runIteration, afterOpen, hr, hrs]

/-- With the thread running and no restart requested, the monitor loop
executes every scheduled iteration: it never exits on its own. -/
theorem runLoop_all (behs : List IterBeh) : ∀ s : ThreadSt,
    s.running = true → s.trigger_restart = false →
    (runLoop behs s).2 = behs.length := by
  induction behs with
  | nil => intro s _ _; rfl
  | cons b rest ih =>
    intro s h1 h2
    have hp := runIteration_preserves b s h2
    simp only [runLoop, h1, if_true, List.length_cons]
    exact congrArg (· + 1) (ih _ (hp.1.trans h1) hp.2.1)

/-- C5: a monitor iteration with `trigger_reopen_device` set whose
`open()` raises `NoDeviceError` logs it, leaves the whole state (flag
included) unchanged, and sleeps until the next interval; an iteration
whose `open()` raises anything else logs at the outer boundary; no
iteration stops the thread or restarts the process while no restart is
requested, and the loop executes every scheduled iteration — it exits only
via an explicit `stop()`. -/
theorem monitor_iteration_resilient (s : ThreadSt) (behs : List IterBeh)
    (hrun : s.running = true) (hre : s.trigger_reopen = true)
    (hrs : s.trigger_restart = false) :
    ((runIteration IterBeh.openNoDevice s).1 = s
     ∧ (runIteration IterBeh.openNoDevice s).2.loggedNoDevice = true
     ∧ (runIteration IterBeh.openNoDevice s).2.slept = true)
    ∧ (runIteration IterBeh.openOther s).2.loggedOther = true
    ∧ (∀ b, (runIteration b s).1.running = true
          ∧ (runIteration b s).2.restarted = false)
    ∧ (runLoop behs s).2 = behs.length := by
  refine ⟨?_, ?_, ?_, runLoop_all behs s hrun hrs⟩
  · simp [runIteration, afterOpen, hre, hrs]
  · simp [runIteration, hre]
  · intro b
    have hp := runIteration_preserves b s hrs
    exact ⟨hp.1.trans hrun, hp.2.2⟩

/-- Witness for C5: a running monitor with the reopen flag set, over a
two-iteration schedule (`NoDeviceError` then an unexpected exception). -/
theorem monitor_iteration_witness :
    ((runIteration IterBeh.openNoDevice ⟨true, true, false⟩).1
        = (⟨true, true, false⟩ : ThreadSt)
     ∧ (runIteration IterBeh.openNoDevice ⟨true, true, false⟩).2.loggedNoDevice = true
     ∧ (runIteration IterBeh.openNoDevice ⟨true, true, false⟩).2.slept = true)
    ∧ (runIteration IterBeh.openOther ⟨true, true, false⟩).2.loggedOther = true
    ∧ ((runIteration IterBeh.openOk ⟨true, true, false⟩).1.running = true
       ∧ (runIteration IterBeh.openOk ⟨true, true, false⟩).2.restarted = false)
    ∧ (runLoop [IterBeh.openNoDevice, IterBeh.openOther] ⟨true, true, false⟩).2 = 2 := by
  obtain ⟨hA, hB, hC, hD⟩ := monitor_iteration_resilient ⟨true, true, false⟩
    [IterBeh.openNoDevice, IterBeh.openOther] rfl rfl rfl
  exact ⟨hA, hB, hC IterBeh.openOk, hD⟩

/-- Counterexample to C2 as stated: in each of the three timed steps
(config, send, receive), if the timer expires and broadcasts `TIMEOUT`
and the device's completion event arrives before the timeout path reaches
its listener-removal step, the callback's `timer.cancel()` is too late
and the completion outcome is broadcast as well — two outcome broadcasts
for one step invocation (the membership guard still keeps the removal
single). -/
theorem test_step_interleaving_double_broadcast :
    ((stepRace TestStep.config [false, false, true, true, true, true, false]).broadcasts
        = [chars "TIMEOUT", chars "PASS"]
     ∧ (stepRace TestStep.config [false, false, true, true, true, true, false]).removals
        = 1)
    ∧ ((stepRace (TestStep.send true) [false, false, true, true, true, true, false]).broadcasts
        = [chars "TIMEOUT", chars "PASS"]
     ∧ (stepRace (TestStep.send false) [false, false, true, true, true, true, false]).broadcasts
        = [chars "TIMEOUT", chars "FAIL"])
    ∧ (stepRace TestStep.recv [false, false, true, true, true, true, false]).broadcasts
        = [chars "TIMEOUT", chars "PASS"] := by
  decide

/-- Each successfully executed race action keeps the combined
removal-count/registration budget at one: a removal can only ever happen
while registered, and it deregisters. -/
theorem execAct_removals (isCb : Bool) (s s1 : TCState) (a : TAct)
    (h : execAct isCb s a = some s1)
    (hinv : s.removals + (if s.registered then 1 else 0) ≤ 1) :
    s1.removals + (if s1.registered then 1 else 0) ≤ 1 := by
  cases a with
  | fire =>
    have hs : s1 = s := by
      cases isCb <;> simp only [execAct] at h <;> split at h <;> simp_all
    rw [hs]; exact hinv
  | cancelT =>
    simp only [execAct, Option.some.injEq] at h
    subst h
    simpa using hinv
  | bPass =>
    simp only [execAct, Option.some.injEq] at h
    subst h
    simpa using hinv
  | bFail =>
    simp only [execAct, Option.some.injEq] at h
    subst h
    simpa using hinv
  | bTimeout =>
    simp only [execAct, Option.some.injEq] at h
    subst h
    simpa using hinv
  | removeIf =>
    by_cases hr : s.registered = true
    · simp only [execAct, hr, if_true, Option.some.injEq] at h
      subst h
      simp only [hr, if_true] at hinv
      simp only [Bool.false_eq_true, if_false]
      omega
    · simp [execAct, hr] at h
      subst h
      exact hinv

/-- The removal budget is an invariant of every interleaved race
execution. -/
theorem runRace_removals (sched : List Bool) : ∀ (s : TCState) (cb t : List TAct),
    s.removals + (if s.registered then 1 else 0) ≤ 1 →
    (runRace sched s cb t).removals
      + (if (runRace sched s cb t).registered then 1 else 0) ≤ 1 := by
  induction sched with
  | nil => intro s cb t h; simpa [runRace] using h
  | cons pick rest ih =>
    intro s cb t h
    cases pick
    · cases t with
      | nil => simpa [runRace] using ih s cb [] h
      | cons a trest =>
        simp only [runRace]
        cases hx : execAct false s a with
        | none => simp only [hx]; exact ih s cb [] h
        | some s1 =>
          simp only [hx]
          exact ih s1 cb trest (execAct_removals false s s1 a hx h)
    · cases cb with
      | nil => simpa [runRace] using ih s [] t h
      | cons a cbrest =>
        simp only [runRace]
        cases hx : execAct true s a with
        | none => simp only [hx]; exact ih s [] t h
        | some s1 =>
          simp only [hx]
          exact ih s1 cbrest t (execAct_removals true s s1 a hx h)

/-- C2 (amended): for every diagnostic test step invocation — config,
send with either acknowledged status, or receive — under every
interleaving of the step's timeout path and completion callback the
listener is removed at most once (the list-membership guard prevents
double-removal); and when the two paths do not interleave, i.e. whichever
fires first runs to completion before the other can start, exactly one
outcome is broadcast: the completion outcome if the callback wins (`PASS`,
or `FAIL` for a send acknowledged with a bad status; the cancelled timer
never fires) and `TIMEOUT` if the timer wins (the deregistered callback
never runs).  Interleaved executions can emit two outcome broadcasts, as
the counterexample shows. -/
theorem test_step_serialized_single_outcome :
    (∀ (step : TestStep) (sched : List Bool), (stepRace step sched).removals ≤ 1)
    ∧ (∀ step : TestStep,
        (stepRace step [true, true, true, true, false, false, false]).broadcasts
          = [if step = TestStep.send false then chars "FAIL" else chars "PASS"]
        ∧ (stepRace step [true, true, true, true, false, false, false]).removals = 1
        ∧ (stepRace step [false, false, false, true, true, true, true]).broadcasts
          = [chars "TIMEOUT"]
        ∧ (stepRace step [false, false, false, true, true, true, true]).removals = 1) := by
  constructor
  · intro step sched
    have h := runRace_removals sched ⟨true, false, 0, []⟩ (cbProgOf step) toProg (by simp)
    exact le_trans (Nat.le_add_right _ _) h
  · intro step
    rcases step with _ | status | _
    · exact ⟨by decide, by decide, by decide, by decide⟩
    · cases status
      · exact ⟨by decide, by decide, by decide, by decide⟩
      · exact ⟨by decide, by decide, by decide, by decide⟩
    · exact ⟨by decide, by decide, by decide, by decide⟩
